import Mathlib

/-
Verification of the phase-sequencing, value-mapping and easing logic of the
spiral/cylinder animation scripts (spiral_kerman revisions).  Definitions are
shallow embeddings of the Python source: machine floats are modelled by exact
rationals, the per-frame callback `update` becomes an explicit state-passing
function, and the index accesses the code performs are tracked so that absence
of runtime failure can be stated.
-/

namespace SpiralKerman

/-! ## Shared data and helpers (identical text in every cited revision) -/

/-- The hardcoded dataset `rows`: ordered (label, value) pairs. -/
def rows : List (String × ℚ) :=
  [("1404/09/01", 11.40), ("1404/09/02", 4.44), ("1404/09/03", 16.81),
   ("1404/09/04", 5.26), ("1404/09/05", 5.39), ("1404/09/06", 14.19),
   ("1404/09/08", 10.05), ("1404/09/09", 10.63), ("1404/09/10", 10.93),
   ("1404/09/11", 10.67), ("1404/09/12", 21.14), ("1404/09/13", 11.83),
   ("1404/09/15", 6.33), ("1404/09/16", 4.97), ("1404/09/17", 20.75),
   ("1404/09/18", 10.38), ("1404/09/19", 10.17), ("1404/09/20", 10.95),
   ("1404/09/21", 17.53), ("1404/09/22", 18.05), ("1404/09/23", 8.28),
   ("1404/09/24", 14.52), ("1404/09/25", 9.72), ("1404/09/26", 9.76),
   ("1404/09/27", 15.62), ("1404/09/28", 14.76), ("1404/09/29", 8.34),
   ("1404/09/30", 10.23)]

/-- Source: `labels = [d for d, _ in rows]`. -/
def labels : List String := rows.map Prod.fst

/-- Source: `vals = np.array([v for _, v in rows])`. -/
def vals : List ℚ := rows.map Prod.snd

/-- Source: `n = len(vals)`. -/
def n : ℕ := vals.length

/-- Source: `np.clip(x, lo, hi)`. -/
def clip (x lo hi : ℚ) : ℚ := min (max x lo) hi

/-- Source: `pct_color(v)`: ordered high-to-low thresholds 17, 9, 6; returns an RGB triple. -/
def pct_color (v : ℚ) : ℚ × ℚ × ℚ :=
  if 17 ≤ v then (0.95, 0.25, 0.30)
  else if 9 ≤ v then (1.00, 0.60, 0.10)
  else if 6 ≤ v then (1.00, 0.80, 0.35)
  else (0.35, 0.85, 0.45)

/-- Source: `get_status(v)` (revisions 073806 and 133304): status label and hex color. -/
def get_status (v : ℚ) : String × String :=
  if 17 ≤ v then ("CRITICAL", "#ff3344")
  else if 9 ≤ v then ("WARNING", "#ff9922")
  else if 6 ≤ v then ("MODERATE", "#ffcc66")
  else ("EXCELLENT", "#35d555")

/-- Source: `lerp(a, b, t) = a + (b - a) * t`. -/
def lerp (a b t : ℚ) : ℚ := a + (b - a) * t

/-- Source: `ease_in_out(t) = t * t * (3 - 2 * t)` (smoothstep). -/
def ease_in_out (t : ℚ) : ℚ := t * t * (3 - 2 * t)

/-- Source: `ease_out_cubic(t) = 1 - (1 - t) ** 3`. -/
def ease_out_cubic (t : ℚ) : ℚ := 1 - (1 - t) ^ 3

/-- The inline ease-out used by revision 133304: `1 - (1 - t) ** 2`. -/
def ease_out_quad (t : ℚ) : ℚ := 1 - (1 - t) ^ 2

/-- The ValueMapper contract shape shared by every revision
(`r = r_small + np.clip(vals / PCT_MAX, 0, 1) * (r_big - r_small)`),
parametrized as in the spec: `radiusFor(v, valueMax, radiusMin, radiusMax)`. -/
def radiusFor (v valueMax radiusMin radiusMax : ℚ) : ℚ :=
  radiusMin + clip (v / valueMax) 0 1 * (radiusMax - radiusMin)

/-- Construction guard of revisions 073806/081346:
`if n == 0: raise SystemExit("rows is empty")`, modelled as a fallible
constructor returning the value list. -/
def checkRows (rs : List (String × ℚ)) : Except String (List ℚ) :=
  if (rs.map Prod.snd).length = 0 then Except.error "rows is empty"
  else Except.ok (rs.map Prod.snd)

end SpiralKerman

namespace SpiralKerman.Rev133111

/-- Revision 133111 scale settings: `PCT_MAX = 22.0`. -/
def PCT_MAX : ℚ := 22.0

/-- Source: `r_min = 0.3`. -/
def r_min : ℚ := 0.3

/-- Source: `r_max = 1.2`. -/
def r_max : ℚ := 1.2

/-- Source: `radii = r_min + np.clip(vals / PCT_MAX, 0, 1) * (r_max - r_min)`,
as a function of a single value. -/
def radii (v : ℚ) : ℚ :=
  r_min + SpiralKerman.clip (v / PCT_MAX) 0 1 * (r_max - r_min)

end SpiralKerman.Rev133111

namespace SpiralKerman.Rev133304

open SpiralKerman

/-- Source: `FRAMES_PER_CIRCLE = 25` (duration for each circle drawing). -/
def FRAMES_PER_CIRCLE : ℕ := 25

/-- Source: `HOLD_FRAMES = 5` (hold after completing circle). -/
def HOLD_FRAMES : ℕ := 5

/-- Source: `total_frames = n * (FRAMES_PER_CIRCLE + HOLD_FRAMES)`. -/
def total_frames : ℕ := n * (FRAMES_PER_CIRCLE + HOLD_FRAMES)

/-- Source: `item_frame = frame % (FRAMES_PER_CIRCLE + HOLD_FRAMES)`. -/
def item_frame (frame : ℕ) : ℕ := frame % (FRAMES_PER_CIRCLE + HOLD_FRAMES)

/-- Source: `i = min(n - 1, frame // (FRAMES_PER_CIRCLE + HOLD_FRAMES))`. -/
def item_i (frame : ℕ) : ℕ := min (n - 1) (frame / (FRAMES_PER_CIRCLE + HOLD_FRAMES))

/-- Source: `draw_progress`: `item_frame / FRAMES_PER_CIRCLE` eased by `1 - (1 - t) ** 2`
while `item_frame < FRAMES_PER_CIRCLE`, else held at `1.0`. -/
def draw_progress (frame : ℕ) : ℚ :=
  if item_frame frame < FRAMES_PER_CIRCLE then
    1 - (1 - (item_frame frame : ℚ) / (FRAMES_PER_CIRCLE : ℚ)) ^ 2
  else 1

end SpiralKerman.Rev133304

namespace SpiralKerman.Rev081346

open SpiralKerman

/-- Source: `FRAMES_PER_CIRCLE = 40`. -/
def FRAMES_PER_CIRCLE : ℕ := 40

/-- Source: `PHASE1_FRAMES = n * FRAMES_PER_CIRCLE`. -/
def PHASE1_FRAMES : ℕ := n * FRAMES_PER_CIRCLE

/-- Source: `PHASE2_FRAMES = 120`. -/
def PHASE2_FRAMES : ℕ := 120

/-- Source: `PHASE3_FRAMES = 150`. -/
def PHASE3_FRAMES : ℕ := 150

/-- Source: `HOLD_FRAMES = 90`. -/
def HOLD_FRAMES : ℕ := 90

/-- Source: `total_frames = PHASE1_FRAMES + PHASE2_FRAMES + PHASE3_FRAMES + HOLD_FRAMES`. -/
def total_frames : ℕ := PHASE1_FRAMES + PHASE2_FRAMES + PHASE3_FRAMES + HOLD_FRAMES

/-- The ordered PhaseSpec frame counts of this revision. -/
def frameCounts : List ℕ := [PHASE1_FRAMES, PHASE2_FRAMES, PHASE3_FRAMES, HOLD_FRAMES]

/-- Modelled from the spec: the cumulative sum of the first `k` phase
frameCounts, used to state the half-open interval semantics of §4.3. -/
def cumFrames (k : ℕ) : ℕ := (frameCounts.take k).sum

/-- The phase index selected by the if/elif/elif/else dispatch of `update`
(lines 139, 203, 230, 264). -/
def phaseIndexOf (frame : ℕ) : ℕ :=
  if frame < PHASE1_FRAMES then 0
  else if frame < PHASE1_FRAMES + PHASE2_FRAMES then 1
  else if frame < PHASE1_FRAMES + PHASE2_FRAMES + PHASE3_FRAMES then 2
  else 3

/-- Phase 2 raw progress: `(frame - PHASE1_FRAMES) / PHASE2_FRAMES`. -/
def phase2_pp (frame : ℕ) : ℚ :=
  ((frame : ℚ) - (PHASE1_FRAMES : ℚ)) / (PHASE2_FRAMES : ℚ)

/-- Phase 3 raw progress: `(frame - PHASE1_FRAMES - PHASE2_FRAMES) / PHASE3_FRAMES`. -/
def phase3_pp (frame : ℕ) : ℚ :=
  ((frame : ℚ) - (PHASE1_FRAMES : ℚ) - (PHASE2_FRAMES : ℚ)) / (PHASE3_FRAMES : ℚ)

/-- Source: `PCT_MAX = 22.0`. -/
def PCT_MAX : ℚ := 22.0

/-- Source: `r_small = 0.35`. -/
def r_small : ℚ := 0.35

/-- Source: `r_big = 1.1`. -/
def r_big : ℚ := 1.1

/-- Source: `r = r_small + np.clip(vals / PCT_MAX, 0, 1) * (r_big - r_small)`, per index. -/
def r (i : ℕ) : ℚ :=
  r_small + clip (vals.getD i 0 / PCT_MAX) 0 1 * (r_big - r_small)

/-- Phase 1 circle index after the clamp of lines 141 and 145-147:
`circle_idx = frame // FRAMES_PER_CIRCLE`, replaced by `n - 1` when `>= n`. -/
def circleIdx (frame : ℕ) : ℕ :=
  if n ≤ frame / FRAMES_PER_CIRCLE then n - 1 else frame / FRAMES_PER_CIRCLE

/-- Phase 1 circle progress after the same clamp:
`ease_out_cubic((frame % FRAMES_PER_CIRCLE) / FRAMES_PER_CIRCLE)`,
replaced by `1.0` when `circle_idx >= n`. -/
def circleProg (frame : ℕ) : ℚ :=
  if n ≤ frame / FRAMES_PER_CIRCLE then 1
  else ease_out_cubic (((frame % FRAMES_PER_CIRCLE : ℕ) : ℚ) / (FRAMES_PER_CIRCLE : ℚ))

/-- One drawn circle: the parameters from which the plotted points are
computed (radius, fraction of the full turn drawn, point count, z level,
RGB color, alpha, line width). -/
structure LineSeg where
  radius : ℚ
  frac : ℚ
  numPoints : ℤ
  zLevel : ℚ
  color : ℚ × ℚ × ℚ
  alpha : ℚ
  lw : ℚ
  deriving DecidableEq

/-- The mutable matplotlib state `update` touches: the `lines` list, the 3D
date labels (text, z, alpha), and the figure texts (value and color of
`main_text`, label of `date_text`, their alphas) plus the camera angles. -/
structure AnimState where
  lines : List LineSeg
  labels3d : List (String × ℚ × ℚ)
  mainVal : Option ℚ
  mainColor : ℚ × ℚ × ℚ
  mainAlpha : ℚ
  dateLabel : String
  dateAlpha : ℚ
  elev : ℚ
  azim : ℚ
  deriving DecidableEq

/-- The initial figure state (lines 108-123): top-down view `(90, -90)`,
empty texts at alpha 0, no line objects. -/
def initState : AnimState :=
  { lines := [], labels3d := [], mainVal := none, mainColor := (1, 1, 1),
    mainAlpha := 0, dateLabel := "", dateAlpha := 0, elev := 90, azim := -90 }

/-- A previously-completed phase-1 circle (lines 153-164):
`alpha = max(0.5 - i * 0.015, 0.15)`, `lw = 2.0`, full turn at `z = 0`. -/
def prevSeg (i : ℕ) : LineSeg :=
  { radius := r i, frac := 1, numPoints := 200, zLevel := 0,
    color := pct_color (vals.getD i 0),
    alpha := max (0.5 - (i : ℚ) * 0.015) 0.15, lw := 2.0 }

/-- The currently-drawing phase-1 circle plus its glow (lines 168-185):
drawn only when `num_points = int(200 * circle_progress) >= 2`. -/
def curSegs (ci : ℕ) (cp : ℚ) : List LineSeg :=
  if 2 ≤ ⌊(200 : ℚ) * cp⌋ then
    [{ radius := r ci, frac := cp, numPoints := ⌊(200 : ℚ) * cp⌋, zLevel := 0,
       color := pct_color (vals.getD ci 0), alpha := 0.95, lw := 2.8 },
     { radius := r ci, frac := cp, numPoints := ⌊(200 : ℚ) * cp⌋, zLevel := 0,
       color := pct_color (vals.getD ci 0), alpha := 0.3, lw := 6.0 }]
  else []

/-- A phase-2 circle (lines 212-224): `z = i * (0.1 * t)`,
`alpha = max(0.75 - i * 0.01, 0.3)`, `lw = 2.2`. -/
def p2seg (t : ℚ) (i : ℕ) : LineSeg :=
  { radius := r i, frac := 1, numPoints := 200, zLevel := (i : ℚ) * (0.1 * t),
    color := pct_color (vals.getD i 0),
    alpha := max (0.75 - (i : ℚ) * 0.01) 0.3, lw := 2.2 }

/-- A phase-3 / hold circle (lines 239-250 and 270-281): `z = i * 0.1`,
`alpha = 0.85`, `lw = 2.5`. -/
def cylSeg (i : ℕ) : LineSeg :=
  { radius := r i, frac := 1, numPoints := 200, zLevel := (i : ℚ) * 0.1,
    color := pct_color (vals.getD i 0), alpha := 0.85, lw := 2.5 }

/-- Indices of `range(0, n, 2)`. -/
def evens : List ℕ := (List.range ((n + 1) / 2)).map (fun k => 2 * k)

/-- The 3D date labels drawn at alpha `a` (lines 255-259 and 284-287). -/
def labels3dAt (a : ℚ) : List (String × ℚ × ℚ) :=
  evens.map (fun i => (labels.getD i "", (i : ℚ) * 0.1, a))

/-- Phase 1 camera: constant `elev = 90`, `azim = -90` (lines 149-150). -/
def phase1_cam : ℚ × ℚ := (90, -90)

/-- Phase 2 camera at raw progress `p` (lines 206-210):
`t = ease_in_out(p)`, `elev = 90 - 45 t`, `azim = -90 + 15 t`. -/
def phase2_cam (p : ℚ) : ℚ × ℚ :=
  (90 - 45 * ease_in_out p, -90 + 15 * ease_in_out p)

/-- Phase 3 camera at raw progress `p` (lines 233-237):
`t = ease_in_out(p)`, `elev = 45 - 45 t`, `azim = -75 + 75 t`. -/
def phase3_cam (p : ℚ) : ℚ × ℚ :=
  (45 - 45 * ease_in_out p, -75 + 75 * ease_in_out p)

/-- Hold camera: `elev = 0`, `azim = 0` (lines 267-268). -/
def hold_cam : ℚ × ℚ := (0, 0)

/-- The phase-1 branch of `update` (lines 139-201). Note the text block runs
inside `if circle_idx < n`; in its `elif frame < FRAMES_PER_CIRCLE * 0.3`
branch only the alphas are set, so text content and color persist from the
previous state. -/
def phase1_out (frame : ℕ) (s : AnimState) : AnimState :=
  let ci := circleIdx frame
  let cp := circleProg frame
  let ls := (List.range ci).map prevSeg ++ (if ci < n then curSegs ci cp else [])
  if ci < n then
    if 0.7 < cp then
      { lines := ls, labels3d := [],
        mainVal := some (vals.getD ci 0), mainColor := pct_color (vals.getD ci 0),
        mainAlpha := (cp - 0.7) / 0.3 * 0.8,
        dateLabel := labels.getD ci "",
        dateAlpha := (cp - 0.7) / 0.3 * 0.7,
        elev := phase1_cam.1, azim := phase1_cam.2 }
    else if frame < 12 then
      { s with
    lines := ls, labels3d := [],
        mainAlpha := (1 - ((frame % FRAMES_PER_CIRCLE : ℕ) : ℚ) / 12) * 0.8,
        dateAlpha := (1 - ((frame % FRAMES_PER_CIRCLE : ℕ) : ℚ) / 12) * 0.7,
        elev := phase1_cam.1, azim := phase1_cam.2 }
    else
      { s with
    lines := ls, labels3d := [], mainAlpha := 0, dateAlpha := 0,
        elev := phase1_cam.1, azim := phase1_cam.2 }
  else
    { s with
    lines := ls, labels3d := [],
      elev := phase1_cam.1, azim := phase1_cam.2 }

/-- The phase-2 branch of `update` (lines 203-228). -/
def phase2_out (frame : ℕ) (s : AnimState) : AnimState :=
  let t := ease_in_out (phase2_pp frame)
  { s with
    lines := (List.range n).map (p2seg t), labels3d := [],
    mainAlpha := 0.8 * (1 - t), dateAlpha := 0.7 * (1 - t),
    elev := (phase2_cam (phase2_pp frame)).1, azim := (phase2_cam (phase2_pp frame)).2 }

/-- The phase-3 branch of `update` (lines 230-262): date labels appear once
`t > 0.4` with `alpha = min(1, (t - 0.4) / 0.3) * 0.85`. -/
def phase3_out (frame : ℕ) (s : AnimState) : AnimState :=
  let t := ease_in_out (phase3_pp frame)
  { s with
    lines := (List.range n).map cylSeg,
    labels3d := if 0.4 < t then labels3dAt (min 1 ((t - 0.4) / 0.3) * 0.85) else [],
    mainAlpha := 0, dateAlpha := 0,
    elev := (phase3_cam (phase3_pp frame)).1, azim := (phase3_cam (phase3_pp frame)).2 }

/-- The terminal hold branch of `update` (lines 264-290): frame-independent. -/
def holdPhase_out (s : AnimState) : AnimState :=
  { s with
    lines := (List.range n).map cylSeg, labels3d := labels3dAt 0.85,
    mainAlpha := 0, dateAlpha := 0, elev := hold_cam.1, azim := hold_cam.2 }

/-- The per-frame callback `update(frame)` (lines 128-295) as a state
transformer: it first clears `lines` and `date_labels_3d`, then rebuilds
everything according to the phase dispatch. -/
def update (frame : ℕ) (s : AnimState) : AnimState :=
  if frame < PHASE1_FRAMES then phase1_out frame s
  else if frame < PHASE1_FRAMES + PHASE2_FRAMES then phase2_out frame s
  else if frame < PHASE1_FRAMES + PHASE2_FRAMES + PHASE3_FRAMES then phase3_out frame s
  else holdPhase_out s

/-- The per-frame output the spec lists for the FrameRenderer: camera angles,
drawn geometry, 3D labels, and the two text visibilities. -/
structure FrameOut where
  elev : ℚ
  azim : ℚ
  lines : List LineSeg
  labels3d : List (String × ℚ × ℚ)
  mainAlpha : ℚ
  dateAlpha : ℚ
  deriving DecidableEq

/-- Projection of the mutable state onto the per-frame output. -/
def frameOut (s : AnimState) : FrameOut :=
  { elev := s.elev, azim := s.azim, lines := s.lines, labels3d := s.labels3d,
    mainAlpha := s.mainAlpha, dateAlpha := s.dateAlpha }

/-- The frame output produced from the initial figure state. -/
def frameAt (frame : ℕ) : FrameOut := frameOut (update frame initState)

/-- Camera angles at a given frame. -/
def camAt (frame : ℕ) : ℚ × ℚ := ((frameAt frame).elev, (frameAt frame).azim)

/-- The fixed output of the terminal hold branch. -/
def holdFrameOut : FrameOut :=
  { elev := 0, azim := 0, lines := (List.range n).map cylSeg,
    labels3d := labels3dAt 0.85, mainAlpha := 0, dateAlpha := 0 }

/-- The dataset indices `update` subscripts at a given frame (a superset of
the accesses actually performed): in phase 1, the previous circles
`range(circle_idx)` plus the current circle; afterwards, `range(n)` for the
circles and the even indices for the date labels. -/
def accessList (frame : ℕ) : List ℕ :=
  if frame < PHASE1_FRAMES then
    List.range (circleIdx frame) ++
      (if circleIdx frame < n then [circleIdx frame] else [])
  else if frame < PHASE1_FRAMES + PHASE2_FRAMES then List.range n
  else List.range n ++ evens

end SpiralKerman.Rev081346

/-! ## Theorems -/

namespace SpiralKerman

lemma n_eq : n = 28 := rfl

/-- C4: get_status / pct_color map every value by ordered high-to-low
thresholds 17, 9, 6 (boundary values resolve to the higher band; the lowest
band is the code's EXCELLENT, the spec's LOW), together with the exact
boundary evaluations at 17, 16.999, 9, 8.999, 6 and 5.999. -/
theorem category_thresholds :
    (∀ v : ℚ, (17 ≤ v → (get_status v).1 = "CRITICAL") ∧
      (9 ≤ v → v < 17 → (get_status v).1 = "WARNING") ∧
      (6 ≤ v → v < 9 → (get_status v).1 = "MODERATE") ∧
      (v < 6 → (get_status v).1 = "EXCELLENT")) ∧
    (get_status 17).1 = "CRITICAL" ∧ (get_status 16.999).1 = "WARNING" ∧
    (get_status 9).1 = "WARNING" ∧ (get_status 8.999).1 = "MODERATE" ∧
    (get_status 6).1 = "MODERATE" ∧ (get_status 5.999).1 = "EXCELLENT" := by
  constructor
  · intro v
    refine ⟨fun h => ?_, fun h h2 => ?_, fun h h2 => ?_, fun h => ?_⟩ <;>
      unfold get_status <;> split_ifs <;> first | rfl | (exfalso; linarith)
  · refine ⟨?_, ?_, ?_, ?_, ?_, ?_⟩ <;> norm_num [get_status]

/-- C4 witness: the band characterization applied at 20, 10, 7 and 3. -/
theorem category_thresholds_witness :
    (get_status 20).1 = "CRITICAL" ∧ (get_status 10).1 = "WARNING" ∧
    (get_status 7).1 = "MODERATE" ∧ (get_status 3).1 = "EXCELLENT" :=
  ⟨(category_thresholds.1 20).1 (by norm_num),
   (category_thresholds.1 10).2.1 (by norm_num) (by norm_num),
   (category_thresholds.1 7).2.2.1 (by norm_num) (by norm_num),
   (category_thresholds.1 3).2.2.2 (by norm_num)⟩

/-- C9: pct_color and get_status always agree: for every value, the color is
the vibrant red iff the status is CRITICAL, the rich orange iff WARNING, the
light orange iff MODERATE, and the green iff EXCELLENT. -/
theorem pct_color_get_status_agree :
    ∀ v : ℚ,
      ((pct_color v = (0.95, 0.25, 0.30)) ↔ (get_status v).1 = "CRITICAL") ∧
      ((pct_color v = (1.00, 0.60, 0.10)) ↔ (get_status v).1 = "WARNING") ∧
      ((pct_color v = (1.00, 0.80, 0.35)) ↔ (get_status v).1 = "MODERATE") ∧
      ((pct_color v = (0.35, 0.85, 0.45)) ↔ (get_status v).1 = "EXCELLENT") := by
  intro v
  unfold pct_color get_status
  split_ifs <;> refine ⟨?_, ?_, ?_, ?_⟩ <;> norm_num [Prod.ext_iff] <;> decide

/-- C5: radiusFor clamps below to radiusMin, above to radiusMax, is monotone
everywhere and strictly increasing between 0 and valueMax (for a positive
valueMax, the configuration invariant of every revision). -/
theorem radiusFor_clamp_monotone :
    (∀ v valueMax radiusMin radiusMax : ℚ, 0 < valueMax → v ≤ 0 →
      radiusFor v valueMax radiusMin radiusMax = radiusMin) ∧
    (∀ v valueMax radiusMin radiusMax : ℚ, 0 < valueMax → valueMax ≤ v →
      radiusFor v valueMax radiusMin radiusMax = radiusMax) ∧
    (∀ v w valueMax radiusMin radiusMax : ℚ, 0 < valueMax →
      radiusMin ≤ radiusMax → v ≤ w →
      radiusFor v valueMax radiusMin radiusMax ≤ radiusFor w valueMax radiusMin radiusMax) ∧
    (∀ v w valueMax radiusMin radiusMax : ℚ, 0 < valueMax →
      radiusMin < radiusMax → 0 ≤ v → v < w → w ≤ valueMax →
      radiusFor v valueMax radiusMin radiusMax < radiusFor w valueMax radiusMin radiusMax) := by
  refine ⟨?_, ?_, ?_, ?_⟩
  · intro v vm rmin rmax hvm hv
    have h1 : v / vm ≤ 0 := div_nonpos_iff.mpr (Or.inr ⟨hv, hvm.le⟩)
    unfold radiusFor clip
    rw [max_eq_right h1, min_eq_left (by norm_num : (0 : ℚ) ≤ 1)]
    ring
  · intro v vm rmin rmax hvm hv
    have h1 : 1 ≤ v / vm := (one_le_div hvm).mpr hv
    unfold radiusFor clip
    rw [max_eq_left (le_trans zero_le_one h1), min_eq_right h1]
    ring
  · intro v w vm rmin rmax hvm hle hvw
    have h1 : v / vm ≤ w / vm := by gcongr
    unfold radiusFor clip
    have h2 : min (max (v / vm) 0) 1 ≤ min (max (w / vm) 0) 1 :=
      min_le_min (max_le_max h1 le_rfl) le_rfl
    have h3 : (0 : ℚ) ≤ rmax - rmin := by linarith
    nlinarith
  · intro v w vm rmin rmax hvm hlt hv0 hvw hwm
    have hv1 : v / vm ≤ 1 := (div_le_one hvm).mpr (by linarith)
    have hw1 : w / vm ≤ 1 := (div_le_one hvm).mpr hwm
    have hv0q : 0 ≤ v / vm := div_nonneg hv0 hvm.le
    have hw0q : 0 ≤ w / vm := div_nonneg (by linarith) hvm.le
    have hs : v / vm < w / vm := by gcongr
    unfold radiusFor clip
    rw [max_eq_left hv0q, min_eq_left hv1, max_eq_left hw0q, min_eq_left hw1]
    nlinarith

/-- C5 witness: the four parts applied at the 081346 configuration
(valueMax 22, radiusMin 0.35, radiusMax 1.1) with v = -1, 30, 5 < 10. -/
theorem radiusFor_clamp_monotone_witness :
    radiusFor (-1) 22 0.35 1.1 = 0.35 ∧ radiusFor 30 22 0.35 1.1 = 1.1 ∧
    radiusFor 5 22 0.35 1.1 ≤ radiusFor 10 22 0.35 1.1 ∧
    radiusFor 5 22 0.35 1.1 < radiusFor 10 22 0.35 1.1 :=
  ⟨radiusFor_clamp_monotone.1 (-1) 22 0.35 1.1 (by norm_num) (by norm_num),
   radiusFor_clamp_monotone.2.1 30 22 0.35 1.1 (by norm_num) (by norm_num),
   radiusFor_clamp_monotone.2.2.1 5 10 22 0.35 1.1 (by norm_num) (by norm_num) (by norm_num),
   radiusFor_clamp_monotone.2.2.2 5 10 22 0.35 1.1 (by norm_num) (by norm_num)
     (by norm_num) (by norm_num) (by norm_num)⟩

/-- C6 counterexample: at the scenario inputs (valueMax 22, radiusMin 0.3,
radiusMax 1.2) the code computes radii 111/220, 39/55 and 123/110, i.e.
about 0.505, 0.709 and 1.118 - none of them is within 1/50 of the claimed
0.349, 0.645 and 1.091. -/
theorem scenario_radii_counterexample :
    Rev133111.radii 5 = 111/220 ∧ Rev133111.radii 10 = 39/55 ∧
    Rev133111.radii 20 = 123/110 ∧
    ¬ |Rev133111.radii 5 - 0.349| ≤ 1/50 ∧
    ¬ |Rev133111.radii 10 - 0.645| ≤ 1/50 ∧
    ¬ |Rev133111.radii 20 - 1.091| ≤ 1/50 := by
  have h5 : Rev133111.radii 5 = 111/220 := by
    norm_num [Rev133111.radii, Rev133111.r_min, Rev133111.r_max, Rev133111.PCT_MAX,
      clip, min_def, max_def]
  have h10 : Rev133111.radii 10 = 39/55 := by
    norm_num [Rev133111.radii, Rev133111.r_min, Rev133111.r_max, Rev133111.PCT_MAX,
      clip, min_def, max_def]
  have h20 : Rev133111.radii 20 = 123/110 := by
    norm_num [Rev133111.radii, Rev133111.r_min, Rev133111.r_max, Rev133111.PCT_MAX,
      clip, min_def, max_def]
  refine ⟨h5, h10, h20, ?_, ?_, ?_⟩
  · rw [h5, show (111/220 - 0.349 : ℚ) = 1711/11000 by norm_num,
      abs_of_pos (by norm_num)]
    norm_num
  · rw [h10, show (39/55 - 0.645 : ℚ) = 141/2200 by norm_num,
      abs_of_pos (by norm_num)]
    norm_num
  · rw [h20, show (123/110 - 1.091 : ℚ) = 299/11000 by norm_num,
      abs_of_pos (by norm_num)]
    norm_num

/-- C6 amended: for the 3-point dataset [5, 10, 20] with valueMax 22,
radiusMin 0.3, radiusMax 1.2, the computed radii are 111/220, 39/55, 123/110
(about 0.505, 0.709, 1.118) and the categories are EXCELLENT (the spec's
LOW band), WARNING and CRITICAL with the matching colors. -/
theorem scenario_radii_categories :
    Rev133111.radii 5 = 111/220 ∧ Rev133111.radii 10 = 39/55 ∧
    Rev133111.radii 20 = 123/110 ∧
    pct_color 5 = (0.35, 0.85, 0.45) ∧ (get_status 5).1 = "EXCELLENT" ∧
    pct_color 10 = (1.00, 0.60, 0.10) ∧ (get_status 10).1 = "WARNING" ∧
    pct_color 20 = (0.95, 0.25, 0.30) ∧ (get_status 20).1 = "CRITICAL" := by
  refine ⟨?_, ?_, ?_, ?_, ?_, ?_, ?_, ?_, ?_⟩ <;>
    norm_num [Rev133111.radii, Rev133111.r_min, Rev133111.r_max, Rev133111.PCT_MAX,
      clip, min_def, max_def, pct_color, get_status]

end SpiralKerman

namespace SpiralKerman

lemma P1_eq : Rev081346.PHASE1_FRAMES = 1120 := rfl

lemma P2_eq : Rev081346.PHASE2_FRAMES = 120 := rfl

lemma P3_eq : Rev081346.PHASE3_FRAMES = 150 := rfl

lemma cum0_eq : Rev081346.cumFrames 0 = 0 := rfl

lemma cum1_eq : Rev081346.cumFrames 1 = 1120 := rfl

lemma cum2_eq : Rev081346.cumFrames 2 = 1240 := rfl

lemma cum3_eq : Rev081346.cumFrames 3 = 1390 := rfl

lemma cum4_eq : Rev081346.cumFrames 4 = 1480 := rfl

lemma total81_eq : Rev081346.total_frames = 1480 := rfl

lemma total304_eq : Rev133304.total_frames = 840 := rfl

lemma circleIdx_lt (f : ℕ) : Rev081346.circleIdx f < n := by
  simp only [Rev081346.circleIdx, Rev081346.FRAMES_PER_CIRCLE, n_eq]
  split_ifs <;> omega

/-- C3: within the phase-1 per-item sub-loop, the item index is
localFrame div itemPeriod (never clamped in range: it stays below n), and the
draw progress is the configured easing applied to
min((localFrame mod itemPeriod) / drawFrames, 1), i.e. the raw sub-progress
clamped to 1 in the hold sub-phase.  Revision 133304 uses
itemPeriod = FRAMES_PER_CIRCLE + HOLD_FRAMES with drawFrames =
FRAMES_PER_CIRCLE; revision 081346 uses itemPeriod = drawFrames =
FRAMES_PER_CIRCLE, and its explicit out-of-range clamp resolves to the last
item at progress 1. -/
theorem phase1_subloop_item_resolution :
    (∀ f, f < Rev133304.total_frames →
      Rev133304.item_i f = f / (Rev133304.FRAMES_PER_CIRCLE + Rev133304.HOLD_FRAMES) ∧
      f / (Rev133304.FRAMES_PER_CIRCLE + Rev133304.HOLD_FRAMES) < n ∧
      Rev133304.draw_progress f =
        ease_out_quad (min (((f % (Rev133304.FRAMES_PER_CIRCLE + Rev133304.HOLD_FRAMES) : ℕ) : ℚ) /
          (Rev133304.FRAMES_PER_CIRCLE : ℚ)) 1)) ∧
    (∀ f, f < Rev081346.PHASE1_FRAMES →
      Rev081346.circleIdx f = f / Rev081346.FRAMES_PER_CIRCLE ∧
      f / Rev081346.FRAMES_PER_CIRCLE < n ∧
      Rev081346.circleProg f =
        ease_out_cubic (min (((f % Rev081346.FRAMES_PER_CIRCLE : ℕ) : ℚ) /
          (Rev081346.FRAMES_PER_CIRCLE : ℚ)) 1)) ∧
    (∀ f, n ≤ f / Rev081346.FRAMES_PER_CIRCLE →
      Rev081346.circleIdx f = n - 1 ∧ Rev081346.circleProg f = 1) := by
  refine ⟨?_, ?_, ?_⟩
  · intro f hf
    rw [total304_eq] at hf
    have hdiv : f / (Rev133304.FRAMES_PER_CIRCLE + Rev133304.HOLD_FRAMES) < n := by
      simp only [Rev133304.FRAMES_PER_CIRCLE, Rev133304.HOLD_FRAMES, n_eq]
      omega
    refine ⟨?_, hdiv, ?_⟩
    · simp only [Rev133304.item_i, Rev133304.FRAMES_PER_CIRCLE, Rev133304.HOLD_FRAMES,
        n_eq] at hdiv ⊢
      omega
    · have hpos : (0 : ℚ) < (Rev133304.FRAMES_PER_CIRCLE : ℚ) := by
        norm_num [Rev133304.FRAMES_PER_CIRCLE]
      unfold Rev133304.draw_progress
      split_ifs with h
      · have h2 : f % (Rev133304.FRAMES_PER_CIRCLE + Rev133304.HOLD_FRAMES) ≤
            Rev133304.FRAMES_PER_CIRCLE := by
          have h3 := h
          simp only [Rev133304.item_frame] at h3
          exact h3.le
        have h1 : ((f % (Rev133304.FRAMES_PER_CIRCLE + Rev133304.HOLD_FRAMES) : ℕ) : ℚ) /
            (Rev133304.FRAMES_PER_CIRCLE : ℚ) ≤ 1 := by
          rw [div_le_one hpos]
          exact_mod_cast h2
        rw [min_eq_left h1]
        try rfl
      · have h2 : Rev133304.FRAMES_PER_CIRCLE ≤
            f % (Rev133304.FRAMES_PER_CIRCLE + Rev133304.HOLD_FRAMES) := by
          have h3 := h
          simp only [Rev133304.item_frame] at h3
          omega
        have h1 : (1 : ℚ) ≤
            ((f % (Rev133304.FRAMES_PER_CIRCLE + Rev133304.HOLD_FRAMES) : ℕ) : ℚ) /
            (Rev133304.FRAMES_PER_CIRCLE : ℚ) := by
          rw [one_le_div hpos]
          exact_mod_cast h2
        rw [min_eq_right h1]
        norm_num [ease_out_quad]
  · intro f hf
    rw [P1_eq] at hf
    have hlt : ¬ n ≤ f / Rev081346.FRAMES_PER_CIRCLE := by
      simp only [Rev081346.FRAMES_PER_CIRCLE, n_eq]
      omega
    have hdiv : f / Rev081346.FRAMES_PER_CIRCLE < n := Nat.not_le.mp hlt
    refine ⟨?_, hdiv, ?_⟩
    · simp only [Rev081346.circleIdx, if_neg hlt]
    · have hq : ((f % Rev081346.FRAMES_PER_CIRCLE : ℕ) : ℚ) ≤ 40 := by
        have := Nat.mod_lt f (show 0 < Rev081346.FRAMES_PER_CIRCLE by norm_num [Rev081346.FRAMES_PER_CIRCLE])
        simp only [Rev081346.FRAMES_PER_CIRCLE] at this ⊢
        exact_mod_cast this.le
      simp only [Rev081346.circleProg, if_neg hlt]
      rw [min_eq_left]
      apply (div_le_one (by norm_num [Rev081346.FRAMES_PER_CIRCLE])).mpr
      simpa [Rev081346.FRAMES_PER_CIRCLE] using hq
  · intro f hf
    exact ⟨by simp only [Rev081346.circleIdx, if_pos hf],
      by simp only [Rev081346.circleProg, if_pos hf]⟩

/-- C3 witness: revision 133304 at frame 100, revision 081346 at frame 50,
and the 081346 clamp at frame 2000. -/
theorem phase1_subloop_item_resolution_witness :
    (Rev133304.item_i 100 = 100 / (Rev133304.FRAMES_PER_CIRCLE + Rev133304.HOLD_FRAMES) ∧
      100 / (Rev133304.FRAMES_PER_CIRCLE + Rev133304.HOLD_FRAMES) < n ∧
      Rev133304.draw_progress 100 =
        ease_out_quad (min (((100 % (Rev133304.FRAMES_PER_CIRCLE + Rev133304.HOLD_FRAMES) : ℕ) : ℚ) /
          (Rev133304.FRAMES_PER_CIRCLE : ℚ)) 1)) ∧
    (Rev081346.circleIdx 50 = 50 / Rev081346.FRAMES_PER_CIRCLE ∧
      50 / Rev081346.FRAMES_PER_CIRCLE < n ∧
      Rev081346.circleProg 50 =
        ease_out_cubic (min (((50 % Rev081346.FRAMES_PER_CIRCLE : ℕ) : ℚ) /
          (Rev081346.FRAMES_PER_CIRCLE : ℚ)) 1)) ∧
    (Rev081346.circleIdx 2000 = n - 1 ∧ Rev081346.circleProg 2000 = 1) :=
  ⟨phase1_subloop_item_resolution.1 100 (by decide),
   phase1_subloop_item_resolution.2.1 50 (by decide),
   phase1_subloop_item_resolution.2.2 2000 (by decide)⟩

/-- C1: the update dispatch selects phase k exactly when the frame lies in
the half-open interval [cumFrames k, cumFrames (k+1)); in phases 2 and 3 the
raw progress the code computes equals localFrame / phaseFrameCount with
localFrame = frame - cumFrames k (it is then passed through ease_in_out);
and the boundary frame PHASE1_FRAMES belongs to the later phase with
localFrame 0 and eased progress 0. -/
theorem phase_selection_half_open :
    (∀ f, f < Rev081346.total_frames → ∀ k, k < 4 →
      (Rev081346.phaseIndexOf f = k ↔
        Rev081346.cumFrames k ≤ f ∧ f < Rev081346.cumFrames (k + 1))) ∧
    (∀ f, Rev081346.phaseIndexOf f = 1 →
      Rev081346.phase2_pp f =
        ((f - Rev081346.cumFrames 1 : ℕ) : ℚ) / (Rev081346.PHASE2_FRAMES : ℚ)) ∧
    (∀ f, Rev081346.phaseIndexOf f = 2 →
      Rev081346.phase3_pp f =
        ((f - Rev081346.cumFrames 2 : ℕ) : ℚ) / (Rev081346.PHASE3_FRAMES : ℚ)) ∧
    (Rev081346.phaseIndexOf Rev081346.PHASE1_FRAMES = 1 ∧
      Rev081346.PHASE1_FRAMES - Rev081346.cumFrames 1 = 0 ∧
      ease_in_out (Rev081346.phase2_pp Rev081346.PHASE1_FRAMES) = 0) := by
  refine ⟨?_, ?_, ?_, ?_⟩
  · intro f hf k hk
    rw [total81_eq] at hf
    interval_cases k <;>
      simp only [Rev081346.phaseIndexOf, P1_eq, P2_eq, P3_eq,
        cum0_eq, cum1_eq, cum2_eq, cum3_eq, cum4_eq, Nat.reduceAdd] <;>
      split_ifs <;> simp <;> omega
  · intro f h
    have h4 : 1120 ≤ f := by
      by_contra hc
      push_neg at hc
      simp only [Rev081346.phaseIndexOf, P1_eq, P2_eq, P3_eq] at h
      rw [if_pos hc] at h
      exact absurd h (by decide)
    simp only [Rev081346.phase2_pp, cum1_eq]
    rw [Nat.cast_sub h4]
    norm_num [P1_eq]
  · intro f h
    have h4 : 1240 ≤ f := by
      by_contra hc
      push_neg at hc
      simp only [Rev081346.phaseIndexOf, P1_eq, P2_eq, P3_eq] at h
      by_cases hlt : f < 1120
      · rw [if_pos hlt] at h
        exact absurd h (by decide)
      · rw [if_neg hlt, if_pos (by omega : f < 1120 + 120)] at h
        exact absurd h (by decide)
    simp only [Rev081346.phase3_pp, cum2_eq]
    rw [Nat.cast_sub h4]
    push_cast [P1_eq, P2_eq]
    ring_nf
  · refine ⟨?_, ?_, ?_⟩ <;>
      norm_num [Rev081346.phaseIndexOf, Rev081346.phase2_pp, ease_in_out,
        P1_eq, P2_eq, P3_eq, cum1_eq]

/-- C1 witness: the interval characterization applied at the boundary frame
1120 with k = 1, and the localFrame correspondences at frames 1200 and 1300. -/
theorem phase_selection_half_open_witness :
    (Rev081346.phaseIndexOf 1120 = 1 ↔
      Rev081346.cumFrames 1 ≤ 1120 ∧ 1120 < Rev081346.cumFrames (1 + 1)) ∧
    Rev081346.phase2_pp 1200 =
      ((1200 - Rev081346.cumFrames 1 : ℕ) : ℚ) / (Rev081346.PHASE2_FRAMES : ℚ) ∧
    Rev081346.phase3_pp 1300 =
      ((1300 - Rev081346.cumFrames 2 : ℕ) : ℚ) / (Rev081346.PHASE3_FRAMES : ℚ) :=
  ⟨phase_selection_half_open.1 1120 (by decide) 1 (by decide),
   phase_selection_half_open.2.1 1200 (by decide),
   phase_selection_half_open.2.2.1 1300 (by decide)⟩

end SpiralKerman

namespace SpiralKerman

lemma phase1_cam_out (f : ℕ) (s : Rev081346.AnimState) :
    ((Rev081346.phase1_out f s).elev, (Rev081346.phase1_out f s).azim) =
      Rev081346.phase1_cam := by
  simp only [Rev081346.phase1_out]
  split_ifs <;> rfl

/-- C2: every frame at or past the start of the hold span, in particular
every frame at or past total_frames, takes the terminal else-branch of
update, whose output is the fixed hold output (camera (0, 0), all n circles
at full z spacing, all even-index date labels, texts invisible), from any
prior state. -/
theorem overrange_clamps_to_hold :
    (∀ f s, Rev081346.cumFrames 3 ≤ f →
      Rev081346.frameOut (Rev081346.update f s) = Rev081346.holdFrameOut) ∧
    (∀ f s, Rev081346.total_frames ≤ f →
      Rev081346.frameOut (Rev081346.update f s) = Rev081346.holdFrameOut) := by
  have key : ∀ f s, Rev081346.cumFrames 3 ≤ f →
      Rev081346.frameOut (Rev081346.update f s) = Rev081346.holdFrameOut := by
    intro f s h
    rw [cum3_eq] at h
    unfold Rev081346.update
    rw [if_neg (by simp only [P1_eq]; omega),
      if_neg (by simp only [P1_eq, P2_eq]; omega),
      if_neg (by simp only [P1_eq, P2_eq, P3_eq]; omega)]
    rfl
  refine ⟨key, fun f s h => key f s ?_⟩
  rw [total81_eq] at h
  rw [cum3_eq]
  omega

/-- C2 witness: frame 2000 (past total_frames = 1480) resolves to the hold
output. -/
theorem overrange_clamps_to_hold_witness :
    Rev081346.frameOut (Rev081346.update 2000 Rev081346.initState) =
      Rev081346.holdFrameOut :=
  overrange_clamps_to_hold.2 2000 Rev081346.initState (by decide)

/-- C7: frame resolution is deterministic and history-free: update first
clears the line and label stores and then writes every listed output field
(camera elevation and azimuth, drawn geometry, 3D labels, text alphas) from
the frame and static configuration alone, so two calls with the same frame
from any two prior mutable states produce identical output; the active
phase, item index and progress are functions of the frame by definition. -/
theorem update_output_state_independent :
    ∀ (f : ℕ) (s1 s2 : Rev081346.AnimState),
      Rev081346.frameOut (Rev081346.update f s1) =
        Rev081346.frameOut (Rev081346.update f s2) := by
  intro f s1 s2
  simp only [Rev081346.update, Rev081346.phase1_out, Rev081346.phase2_out,
    Rev081346.phase3_out, Rev081346.holdPhase_out, Rev081346.frameOut]
  split_ifs <;>
    first
      | rfl
      | (exact absurd (circleIdx_lt f) (by assumption))

/-- C8: the only construction-time failure is the empty-dataset guard
(checkRows errors exactly on an empty row list); the phase frame counts are
positive and sum to total_frames by construction, so the other configuration
errors cannot arise; and frame resolution never fails: update is total and
every dataset index it subscripts is below n at every frame. -/
theorem construction_and_totality :
    (∀ rs : List (String × ℚ), (∃ e, checkRows rs = Except.error e) ↔ rs = []) ∧
    (∀ c ∈ Rev081346.frameCounts, 0 < c) ∧
    Rev081346.frameCounts.sum = Rev081346.total_frames ∧
    (∀ f : ℕ, ∀ i ∈ Rev081346.accessList f, i < n) := by
  refine ⟨?_, by decide, by decide, ?_⟩
  · intro rs
    constructor
    · rintro ⟨e, he⟩
      unfold checkRows at he
      split_ifs at he with h
      simpa using h
    · rintro rfl
      exact ⟨"rows is empty", rfl⟩
  · intro f i hi
    unfold Rev081346.accessList at hi
    split_ifs at hi
    · rcases List.mem_append.mp hi with hr | hr
      · exact lt_trans (List.mem_range.mp hr) (circleIdx_lt f)
      · have h3 : i = Rev081346.circleIdx f := by simpa using hr
        exact h3 ▸ circleIdx_lt f
    · exact absurd (circleIdx_lt f) (by assumption)
    · exact List.mem_range.mp hi
    · rcases List.mem_append.mp hi with hr | hr
      · exact List.mem_range.mp hr
      · simp only [Rev081346.evens, List.mem_map, List.mem_range] at hr
        obtain ⟨k, hk, rfl⟩ := hr
        rw [n_eq] at hk ⊢
        omega

/-- C8 witness: the empty row list is rejected, and index 0 accessed at
frame 5 is in bounds. -/
theorem construction_and_totality_witness :
    (∃ e, checkRows ([] : List (String × ℚ)) = Except.error e) ∧ (0 : ℕ) < n :=
  ⟨(construction_and_totality.1 []).mpr rfl,
   construction_and_totality.2.2.2 5 0 (by decide)⟩

/-- C10: the camera path is continuous across every phase boundary: phase 1
holds (90, -90); phase 2 interpolates from (90, -90) at progress 0 to
(45, -75) at progress 1; phase 3 from (45, -75) to (0, 0); the hold phase is
fixed at (0, 0); and at the boundary frames 1120, 1240 and 1390 the rendered
camera equals the end camera of the preceding phase (frame 1119 being the
last phase-1 frame). -/
theorem camera_continuity :
    Rev081346.phase2_cam 0 = Rev081346.phase1_cam ∧
    Rev081346.phase3_cam 0 = Rev081346.phase2_cam 1 ∧
    Rev081346.hold_cam = Rev081346.phase3_cam 1 ∧
    Rev081346.camAt 1119 = Rev081346.phase1_cam ∧
    Rev081346.camAt 1120 = Rev081346.phase1_cam ∧
    Rev081346.camAt 1240 = Rev081346.phase2_cam 1 ∧
    Rev081346.camAt 1390 = Rev081346.phase3_cam 1 := by
  refine ⟨?_, ?_, ?_, ?_, ?_, ?_, ?_⟩
  · norm_num [Rev081346.phase2_cam, Rev081346.phase1_cam, ease_in_out]
  · norm_num [Rev081346.phase3_cam, Rev081346.phase2_cam, ease_in_out]
  · norm_num [Rev081346.hold_cam, Rev081346.phase3_cam, ease_in_out]
  · simp only [Rev081346.camAt, Rev081346.frameAt, Rev081346.frameOut,
      Rev081346.update]
    rw [if_pos (by decide : (1119 : ℕ) < Rev081346.PHASE1_FRAMES)]
    exact phase1_cam_out 1119 Rev081346.initState
  · simp only [Rev081346.camAt, Rev081346.frameAt, Rev081346.frameOut,
      Rev081346.update]
    rw [if_neg (by decide : ¬ (1120 : ℕ) < Rev081346.PHASE1_FRAMES),
      if_pos (by decide : (1120 : ℕ) < Rev081346.PHASE1_FRAMES + Rev081346.PHASE2_FRAMES)]
    simp only [Rev081346.phase2_out]
    norm_num [Rev081346.phase2_pp, P1_eq, P2_eq, Rev081346.phase2_cam,
      ease_in_out, Rev081346.phase1_cam]
  · simp only [Rev081346.camAt, Rev081346.frameAt, Rev081346.frameOut,
      Rev081346.update]
    rw [if_neg (by decide : ¬ (1240 : ℕ) < Rev081346.PHASE1_FRAMES),
      if_neg (by decide : ¬ (1240 : ℕ) < Rev081346.PHASE1_FRAMES + Rev081346.PHASE2_FRAMES),
      if_pos (by decide : (1240 : ℕ) < Rev081346.PHASE1_FRAMES + Rev081346.PHASE2_FRAMES + Rev081346.PHASE3_FRAMES)]
    simp only [Rev081346.phase3_out]
    norm_num [Rev081346.phase3_pp, P1_eq, P2_eq, P3_eq, Rev081346.phase3_cam,
      Rev081346.phase2_cam, ease_in_out, Prod.ext_iff]
  · simp only [Rev081346.camAt, Rev081346.frameAt, Rev081346.frameOut,
      Rev081346.update]
    rw [if_neg (by decide : ¬ (1390 : ℕ) < Rev081346.PHASE1_FRAMES),
      if_neg (by decide : ¬ (1390 : ℕ) < Rev081346.PHASE1_FRAMES + Rev081346.PHASE2_FRAMES),
      if_neg (by decide : ¬ (1390 : ℕ) < Rev081346.PHASE1_FRAMES + Rev081346.PHASE2_FRAMES + Rev081346.PHASE3_FRAMES)]
    simp only [Rev081346.holdPhase_out]
    norm_num [Rev081346.hold_cam, Rev081346.phase3_cam, ease_in_out, Prod.ext_iff]

end SpiralKerman
